import Mathlib

/-!
Shallow embedding of `src/utils.py` (pgehourly): `fetch_energy_data` and
`process_pricing_data`.

Modelling conventions:
* Decoded JSON values (the result of `response.json()` / the argument of
  `process_pricing_data`) are modelled by the inductive type `Json`, covering
  the Python values produced by `json` decoding: `None`, `bool`, `int`,
  `float`, `str`, `list`, `dict`.  Dicts are association lists with unique
  keys (Python dicts cannot hold duplicate keys); strings are modelled over
  their character lists (ASCII digits for the `\d` regex class).
* Python floats are modelled by `PyFloat`: an exact rational, or the special
  values `inf`, `neginf`, `nan`.  No arithmetic is performed on prices in the
  source, only conversion and storage, so IEEE rounding/overflow of
  `float(...)` is idealized as exact rational conversion.
* `datetime.strptime(s, '%Y-%m-%dT%H:%M:%S')` is modelled by a backtracking
  parser mirroring CPython's `_strptime` regex
  `\d\d\d\d - (1[0-2]|0[1-9]|[1-9]) - (3[01]|[12]\d|0[1-9]|[1-9]) T
  (2[0-3]|[0-1]\d|\d) : ([0-5]\d|\d) : (6[0-1]|[0-5]\d|\d)` (compiled with
  IGNORECASE, so the literal `T` also matches `t`), followed by the
  whole-string check and the `datetime` constructor validation
  (year >= 1, day <= days in month, second <= 59).
* `print` diagnostics inside the processing loop are modelled by a log of
  `LogEvent`s carried in the fold state (the prints of the outer error
  handler, which merely accompany the re-raised exception, are not logged).
* Each distinct `raise` site is a constructor of `PError`; the Python code
  raises plain `ValueError`/`Exception`, so the caller-observable
  distinction is the message, reproduced exactly by `PError.message`.
* `df.sort_values('datetime')` (an unstable sort in pandas) is modelled by
  `List.insertionSort` on the chronological key; only sortedness and the
  multiset of rows are relied upon, never tie order.
-/

/-- A Python float value: exact rational, or one of the IEEE specials. -/
inductive PyFloat where
  | finite (q : ℚ)
  | inf
  | neginf
  | nan
deriving DecidableEq, Repr

/-- A decoded JSON value, i.e. the Python object produced by `json` decoding. -/
inductive Json where
  | null
  | bool (b : Bool)
  | int (n : Int)
  | float (x : PyFloat)
  | str (s : String)
  | arr (elems : List Json)
  | obj (fields : List (String × Json))
deriving Repr

/-- Python `type(x).__name__` for decoded JSON values. -/
def typeName : Json → String
  | .null => "NoneType"
  | .bool _ => "bool"
  | .int _ => "int"
  | .float _ => "float"
  | .str _ => "str"
  | .arr _ => "list"
  | .obj _ => "dict"

/-- Python truthiness (`bool(x)`) for decoded JSON values. -/
def pyTruthy : Json → Bool
  | .null => false
  | .bool b => b
  | .int n => !(n == 0)
  | .float x => !(x == PyFloat.finite 0)
  | .str s => !(s == "")
  | .arr xs => !xs.isEmpty
  | .obj kvs => !kvs.isEmpty

/-- `x is None` for decoded JSON values. -/
def Json.isNull : Json → Bool
  | .null => true
  | _ => false

/-- `isinstance(x, dict)` for decoded JSON values. -/
def Json.isObj : Json → Bool
  | .obj _ => true
  | _ => false

/-- Dictionary lookup (Python dict keys are unique, so first match suffices). -/
def lookupJ (kvs : List (String × Json)) (k : String) : Option Json :=
  match kvs.find? (fun p => p.1 == k) with
  | some p => some p.2
  | none => none

/-- Python `d.get(k, dflt)`. -/
def dictGet (kvs : List (String × Json)) (k : String) (dflt : Json) : Json :=
  (lookupJ kvs k).getD dflt

/-- Python iteration `for x in v`: lists yield their elements, strings their
one-character substrings, dicts their keys; other values raise
`TypeError: '...' object is not iterable` (modelled as `none`). -/
def pyIterate : Json → Option (List Json)
  | .arr xs => some xs
  | .str s => some (s.data.map fun c => Json.str (String.mk [c]))
  | .obj kvs => some (kvs.map fun p => Json.str p.1)
  | _ => none

/-! ### The two regex substitutions cleaning the raw timestamp -/

/-- Is the character a `[+-]` sign? -/
def isSign (c : Char) : Bool := c == '+' || c == '-'

/-- On the REVERSED character list: if it starts with four ASCII digits
followed by a sign (i.e. the original string ends with `[+-]\d{4}`), strip
them and return the rest, else `none`. -/
def peelOffsetRev : List Char → Option (List Char)
  | d1 :: d2 :: d3 :: d4 :: sg :: rest =>
    if d1.isDigit && d2.isDigit && d3.isDigit && d4.isDigit && isSign sg then
      some rest
    else
      none
  | _ => none

/-- `re.sub(r'[+-]\d{4}$', '', s)` on character lists.  Python's `$` matches
at the end of the string or just before a trailing newline, so both
positions are considered. -/
def stripOffsetL (cs : List Char) : List Char :=
  match peelOffsetRev cs.reverse with
  | some rest => rest.reverse
  | none =>
    match cs.reverse with
    | c :: r2 =>
      if c = '\n' then
        match peelOffsetRev r2 with
        | some rest => ('\n' :: rest).reverse
        | none => cs
      else cs
    | [] => cs

/-- `re.sub(r'[+-]\d{4}$', '', s)`: drop a trailing sign-plus-4-digit
UTC-offset suffix. -/
def stripOffset (s : String) : String := String.mk (stripOffsetL s.data)

/-- One-pass equivalent of the global substitution `re.sub(r'\.\d+', '', s)`:
a `.` followed by at least one digit is dropped together with the maximal
digit run after it.  The flag records whether we are inside such a run. -/
def stripFracGo : Bool → List Char → List Char
  | _, [] => []
  | dropping, c :: cs =>
    if dropping && c.isDigit then
      stripFracGo true cs
    else if c == '.' then
      match cs with
      | d :: _ =>
        if d.isDigit then stripFracGo true cs else c :: stripFracGo false cs
      | [] => [c]
    else
      c :: stripFracGo false cs

/-- `re.sub(r'\.\d+', '', s)`: delete every `.digits` substring. -/
def stripFrac (s : String) : String := String.mk (stripFracGo false s.data)

/-! ### `datetime.strptime(s, '%Y-%m-%dT%H:%M:%S')` -/

/-- Numeric value of an ASCII digit character. -/
def digitVal (c : Char) : Nat := c.toNat - 48

/-- Backtracking parser: all parses of a prefix, in regex backtracking
priority order. -/
def P (α : Type) : Type := List Char → List (α × List Char)

/-- Parser returning a fixed value without consuming input. -/
def pPure {α : Type} (a : α) : P α := fun cs => [(a, cs)]

/-- Sequencing of parsers; the list order realises regex backtracking
priority. -/
def pBind {α β : Type} (p : P α) (f : α → P β) : P β :=
  fun cs => (p cs).flatMap fun r => f r.1 r.2

/-- Ordered alternation, first parser preferred (regex `|`). -/
def pAlt {α : Type} (p q : P α) : P α := fun cs => p cs ++ q cs

/-- Consume one character satisfying the predicate. -/
def pSat (f : Char → Bool) : P Char := fun cs =>
  match cs with
  | c :: rest => if f c then [(c, rest)] else []
  | [] => []

/-- Character range test on code points. -/
def inRange (lo hi : Nat) (c : Char) : Bool :=
  lo ≤ c.toNat && c.toNat ≤ hi

/-- Two-digit numeric field: first char satisfying `f1`, second `f2`. -/
def pD2 (f1 f2 : Char → Bool) : P Nat :=
  pBind (pSat f1) fun c1 => pBind (pSat f2) fun c2 =>
    pPure (10 * digitVal c1 + digitVal c2)

/-- One-digit numeric field. -/
def pD1 (f : Char → Bool) : P Nat :=
  pBind (pSat f) fun c => pPure (digitVal c)

/-- `%Y`: exactly four digits. -/
def pYear : P Nat :=
  pBind (pSat Char.isDigit) fun a => pBind (pSat Char.isDigit) fun b =>
    pBind (pSat Char.isDigit) fun c => pBind (pSat Char.isDigit) fun d =>
      pPure (1000 * digitVal a + 100 * digitVal b + 10 * digitVal c + digitVal d)

/-- `%m`: regex `1[0-2]|0[1-9]|[1-9]`. -/
def pMonth : P Nat :=
  pAlt (pD2 (fun c => c == '1') (inRange 48 50))
    (pAlt (pD2 (fun c => c == '0') (inRange 49 57)) (pD1 (inRange 49 57)))

/-- `%d`: regex `3[01]|[12]\d|0[1-9]|[1-9]`. -/
def pDay : P Nat :=
  pAlt (pD2 (fun c => c == '3') (inRange 48 49))
    (pAlt (pD2 (inRange 49 50) Char.isDigit)
      (pAlt (pD2 (fun c => c == '0') (inRange 49 57)) (pD1 (inRange 49 57))))

/-- `%H`: regex `2[0-3]|[0-1]\d|\d`. -/
def pHour : P Nat :=
  pAlt (pD2 (fun c => c == '2') (inRange 48 51))
    (pAlt (pD2 (inRange 48 49) Char.isDigit) (pD1 Char.isDigit))

/-- `%M`: regex `[0-5]\d|\d`. -/
def pMinute : P Nat :=
  pAlt (pD2 (inRange 48 53) Char.isDigit) (pD1 Char.isDigit)

/-- `%S`: regex `6[0-1]|[0-5]\d|\d` (leap seconds 60 and 61 match the regex
and are rejected later by the `datetime` constructor). -/
def pSecond : P Nat :=
  pAlt (pD2 (fun c => c == '6') (inRange 48 49))
    (pAlt (pD2 (inRange 48 53) Char.isDigit) (pD1 Char.isDigit))

/-- Literal character; the format regex is compiled with `re.IGNORECASE`, so
the literal `T` also matches `t`. -/
def pLit (f : Char → Bool) : P Unit := fun cs =>
  match cs with
  | c :: rest => if f c then [((), rest)] else []
  | [] => []

/-- A naive datetime value as produced by `datetime.strptime`. -/
structure Dt where
  year : Nat
  month : Nat
  day : Nat
  hour : Nat
  minute : Nat
  second : Nat
deriving DecidableEq, Repr

/-- Chronological key; injective on valid datetimes, and key order is
chronological order there. -/
def Dt.key (t : Dt) : Nat :=
  ((((t.year * 13 + t.month) * 32 + t.day) * 24 + t.hour) * 60 + t.minute) * 60
    + t.second

/-- Gregorian leap year, as in Python's `datetime`. -/
def isLeap (y : Nat) : Bool :=
  y % 4 == 0 && (y % 100 != 0 || y % 400 == 0)

/-- Days in a month, as validated by the `datetime` constructor. -/
def daysInMonth (y m : Nat) : Nat :=
  if m == 2 then (if isLeap y then 29 else 28)
  else if m == 4 || m == 6 || m == 9 || m == 11 then 30
  else 31

/-- The `datetime(year, month, day, hour, minute, second)` constructor's
validation on top of what the format regex already guarantees:
`MINYEAR = 1`, day within the month, second at most 59. -/
def mkValidDt (y mo d h mi s : Nat) : Option Dt :=
  if 1 ≤ y ∧ d ≤ daysInMonth y mo ∧ s ≤ 59 then
    some ⟨y, mo, d, h, mi, s⟩
  else
    none

/-- All parses of the format regex for `'%Y-%m-%dT%H:%M:%S'`, in priority
order. -/
def formatParses : P (Nat × Nat × Nat × Nat × Nat × Nat) :=
  pBind pYear fun y =>
    pBind (pLit (fun c => c == '-')) fun _ =>
      pBind pMonth fun mo =>
        pBind (pLit (fun c => c == '-')) fun _ =>
          pBind pDay fun d =>
            pBind (pLit (fun c => c == 'T' || c == 't')) fun _ =>
              pBind pHour fun h =>
                pBind (pLit (fun c => c == ':')) fun _ =>
                  pBind pMinute fun mi =>
                    pBind (pLit (fun c => c == ':')) fun _ =>
                      pBind pSecond fun s =>
                        pPure (y, mo, d, h, mi, s)

/-- `datetime.strptime(s, '%Y-%m-%dT%H:%M:%S')`: take the regex match
(backtracking-first prefix parse), require the whole string consumed
("unconverted data remains" otherwise), then the constructor validation. -/
def strptimeYmdHMS (s : String) : Option Dt :=
  match formatParses s.data with
  | [] => none
  | (⟨y, mo, d, h, mi, sec⟩, rest) :: _ =>
    if rest.isEmpty then mkValidDt y mo d h mi sec else none

/-- The full timestamp pipeline of the source: strip a trailing offset, try
`strptime`; on failure strip `.digits` substrings and retry. -/
def parseTimestamp (s : String) : Option Dt :=
  let clean := stripOffset s
  match strptimeYmdHMS clean with
  | some dt => some dt
  | none => strptimeYmdHMS (stripFrac clean)

/-! ### `float(x)` conversion -/

/-- ASCII whitespace stripped by Python's `float(str)`. -/
def isWsp (c : Char) : Bool :=
  c == ' ' || c == '\t' || c == '\n' || c == '\r' || c == '\x0b' || c == '\x0c'

/-- Case-insensitively peel a fixed lowercase word off the front. -/
def peelLower : List Char → List Char → Option (List Char)
  | [], l => some l
  | _ :: _, [] => none
  | p :: ps, c :: cs => if c.toLower == p then peelLower ps cs else none

/-- A digit run with single underscores allowed between digits (Python
numeric literal syntax accepted by `float(str)`); returns the digit values
and the unconsumed rest. -/
def digRun (acc : List Nat) : List Char → List Nat × List Char
  | c :: cs =>
    if c.isDigit then digRun (acc ++ [digitVal c]) cs
    else if c == '_' then
      match cs with
      | d :: ds => if d.isDigit then digRun (acc ++ [digitVal d]) ds
                   else (acc, c :: cs)
      | [] => (acc, [c])
    else (acc, c :: cs)
  | [] => (acc, [])

/-- A digit sequence: at least one leading digit, then `digRun`. -/
def pDigSeq (l : List Char) : Option (List Nat × List Char) :=
  match l with
  | c :: cs => if c.isDigit then some (digRun [digitVal c] cs) else none
  | [] => none

/-- Natural number from digit values. -/
def natOfDigits (ds : List Nat) : Nat := ds.foldl (fun a d => 10 * a + d) 0

/-- Exponent part `([eE][+-]?digits)?`; the rest must be whitespace only.
Returns the signed exponent. -/
def parseExpPart (l : List Char) : Option Int :=
  match l with
  | 'e' :: r | 'E' :: r =>
    let (eneg, r2) : Bool × List Char :=
      match r with
      | '+' :: rr => (false, rr)
      | '-' :: rr => (true, rr)
      | _ => (false, r)
    match pDigSeq r2 with
    | some (ds, r3) =>
      if r3.all isWsp then
        some (if eneg then -(natOfDigits ds : Int) else (natOfDigits ds : Int))
      else none
    | none => none
  | _ => if l.all isWsp then some 0 else none

/-- Assemble the rational value of a parsed decimal literal. -/
def ratOfParts (neg : Bool) (ip fp : List Nat) (ex : Int) : ℚ :=
  let base : ℚ := (natOfDigits ip : ℚ) + (natOfDigits fp : ℚ) / ((10 : ℚ) ^ fp.length)
  let scaled : ℚ :=
    if 0 ≤ ex then base * (10 : ℚ) ^ ex.toNat else base / (10 : ℚ) ^ (-ex).toNat
  if neg then -scaled else scaled

/-- Python `float(str)`: strip whitespace, optional sign, then `inf`,
`infinity`, `nan` (case-insensitive) or a decimal literal with optional
fraction and exponent; anything else raises `ValueError` (modelled `none`).
The value is idealized as an exact rational (no IEEE rounding/overflow). -/
def parsePyFloat (s : String) : Option PyFloat :=
  let l := s.data.dropWhile isWsp
  let (neg, l2) : Bool × List Char :=
    match l with
    | '+' :: r => (false, r)
    | '-' :: r => (true, r)
    | _ => (false, l)
  match peelLower ['i','n','f','i','n','i','t','y'] l2 with
  | some r => if r.all isWsp then some (if neg then .neginf else .inf) else none
  | none =>
  match peelLower ['i','n','f'] l2 with
  | some r => if r.all isWsp then some (if neg then .neginf else .inf) else none
  | none =>
  match peelLower ['n','a','n'] l2 with
  | some r => if r.all isWsp then some .nan else none
  | none =>
  match pDigSeq l2 with
  | some (ip, r) =>
    match r with
    | '.' :: r2 =>
      match pDigSeq r2 with
      | some (fp, r3) => (parseExpPart r3).map fun ex => .finite (ratOfParts neg ip fp ex)
      | none => (parseExpPart r2).map fun ex => .finite (ratOfParts neg ip [] ex)
    | _ => (parseExpPart r).map fun ex => .finite (ratOfParts neg ip [] ex)
  | none =>
    match l2 with
    | '.' :: r2 =>
      match pDigSeq r2 with
      | some (fp, r3) => (parseExpPart r3).map fun ex => .finite (ratOfParts neg [] fp ex)
      | none => none
    | _ => none

/-- Python `float(x)` on decoded JSON values: numbers and bools convert,
strings go through `parsePyFloat`; `None`, lists and dicts raise `TypeError`
(modelled `none`). -/
def pyFloat : Json → Option PyFloat
  | .int n => some (.finite (n : ℚ))
  | .float x => some x
  | .bool b => some (.finite (if b then 1 else 0))
  | .str s => parsePyFloat s
  | .null => none
  | .arr _ => none
  | .obj _ => none

/-! ### The processing pass of `process_pricing_data` -/

/-- One normalized output row: `{'datetime': dt, 'price': price_float}`. -/
structure PriceRecord where
  dt : Dt
  price : PyFloat
deriving DecidableEq, Repr

/-- Diagnostic `print` events emitted inside the processing loop. -/
inductive LogEvent where
  | skipRecord (tsRaw price : Json)
  | noDataWarn
deriving Repr

/-- Is the event the per-record "Skipping record due to parsing error"
warning? -/
def isSkipEvent : LogEvent → Bool
  | .skipRecord _ _ => true
  | _ => false

/-- Fold state of the processing loop: collected rows (in source order),
the skipped-invalid counter, and the diagnostics emitted so far. -/
structure PState where
  recs : List PriceRecord
  skipped : Nat
  log : List LogEvent
deriving Repr

/-- State update for a record skipped with a parsing error: increment the
counter and emit the warning. -/
def skipSt (st : PState) (ts price : Json) : PState :=
  { st with skipped := st.skipped + 1, log := st.log ++ [.skipRecord ts price] }

/-- Processing of a single detail record (the body of the inner `for`):
non-dicts and records with falsy timestamp or `None` price are skipped
silently; otherwise the timestamp pipeline and `float(price)` run inside a
`try` whose `except (ValueError, TypeError)` increments the skip counter.
A non-string truthy timestamp raises `TypeError` inside the `try` (from
`re.sub`) and is counted like a parse failure. -/
def procDetail (st : PState) (detail : Json) : PState :=
  match detail with
  | .obj kvs =>
    let ts := dictGet kvs "startIntervalTimeStamp" .null
    let price := dictGet kvs "intervalPrice" .null
    if pyTruthy ts && !price.isNull then
      match ts with
      | .str s =>
        match parseTimestamp s with
        | some dt =>
          match pyFloat price with
          | some v => { st with recs := st.recs ++ [⟨dt, v⟩] }
          | none => skipSt st ts price
        | none => skipSt st ts price
      | _ => skipSt st ts price
    else st
  | _ => st

/-- The raise sites of `process_pricing_data`; the Python code raises plain
`ValueError` (or lets a `TypeError` escape for a truthy non-iterable), all
re-raised by the outer handler as `Exception('Failed to process data: ...')`,
so the constructors record which message the caller sees. -/
inductive PError where
  | malformed (tname : String)
  | noData
  | emptyResult (skipped : Nat)
  | notIterable (tname : String)
deriving DecidableEq, Repr

/-- Processing of one entry of `data` (the body of the outer `for`):
non-dicts and entries with falsy `priceDetails` are skipped; a truthy
non-iterable `priceDetails` raises `TypeError`, which the outer handler
re-raises. -/
def procItem (st : PState) (item : Json) : Except PError PState :=
  match item with
  | .obj kvs =>
    let pd := dictGet kvs "priceDetails" (.arr [])
    if pyTruthy pd then
      match pyIterate pd with
      | some details => .ok (details.foldl procDetail st)
      | none => .error (.notIterable (typeName pd))
    else .ok st
  | _ => .ok st

/-- The outer `for data_item in data_list` loop. -/
def procItems (st : PState) : List Json → Except PError PState
  | [] => .ok st
  | item :: rest =>
    match procItem st item with
    | .ok st2 => procItems st2 rest
    | .error e => .error e

/-- Chronological order on rows (pandas `sort_values('datetime')`). -/
def recLE (a b : PriceRecord) : Prop := a.dt.key ≤ b.dt.key

instance : DecidableRel recLE := fun a b => Nat.decLe a.dt.key b.dt.key

instance : IsTotal PriceRecord recLE := ⟨fun a b => Nat.le_total a.dt.key b.dt.key⟩

instance : IsTrans PriceRecord recLE := ⟨fun _ _ _ h1 h2 => Nat.le_trans h1 h2⟩

/-- `df.sort_values('datetime')`; pandas' default sort is unstable, so only
sortedness and the multiset of rows are meaningful, never tie order. -/
def sortRecs (recs : List PriceRecord) : List PriceRecord :=
  List.insertionSort recLE recs

/-- `process_pricing_data`: shape checks, the nested loops, the
zero-records escalation, and the final sort. -/
def processPricingData (data : Json) : Except PError (List PriceRecord) :=
  match data with
  | .obj kvs =>
    let dl := dictGet kvs "data" (.arr [])
    if pyTruthy dl then
      match pyIterate dl with
      | some items =>
        match procItems ⟨[], 0, []⟩ items with
        | .ok st =>
          if st.recs.isEmpty then .error (.emptyResult st.skipped)
          else .ok (sortRecs st.recs)
        | .error e => .error e
      | none => .error (.notIterable (typeName dl))
    else .error .noData
  | _ => .error (.malformed (typeName data))

/-- The exact message of each raise site of `process_pricing_data`. -/
def PError.message : PError → String
  | .malformed t => "Expected dict but got " ++ t
  | .noData =>
    "No data found in API response. The API may not have data for the selected date range."
  | .emptyResult n =>
    "No valid pricing data records found after processing."
      ++ (if 0 < n then " Skipped " ++ toString n ++ " invalid records." else "")
      ++ " This may indicate: (1) No data available for the selected date range, (2) API response structure changed, or (3) All records had parsing errors."
  | .notIterable t => "'" ++ t ++ "' object is not iterable"

/-! ### `fetch_energy_data` and the combined pipeline -/

/-- The fixed request target of the fetcher. -/
def baseUrl : String := "https://pge-pe-api.gridx.com/v1/getPricing"

/-- The query parameters of the single GET request. -/
def requestParams (startDate endDate : String) : List (String × String) :=
  [("utility", "PGE"), ("market", "DAM"), ("startdate", startDate),
   ("enddate", endDate), ("ratename", "EV2A"),
   ("representativeCircuitId", "024040403"), ("program", "CalFUSE")]

/-- Outcome of one HTTP GET: a decoded JSON body, or one of the
`requests.exceptions.RequestException` failures the `except` clause catches
(network error, `raise_for_status` on a bad status, or a JSON decode error
from `response.json()`), each carrying its `str(e)` description. -/
inductive HttpOutcome where
  | success (body : Json)
  | netError (cause : String)
  | badStatus (code : Nat) (cause : String)
  | nonJson (cause : String)

/-- The body of `fetch_energy_data`'s `try`: a successful response yields
the decoded body, any caught failure yields its cause description. -/
def fetchOutcome : HttpOutcome → Except String Json
  | .success b => .ok b
  | .netError c => .error c
  | .badStatus _ c => .error c
  | .nonJson c => .error c

/-- `fetch_energy_data`, against an oracle giving the outcome each
successive HTTP request would have; the code performs exactly one
`requests.get`, so only `oracle 0` is consulted, and the returned count of
issued requests is 1.  A failure is re-raised as
`Exception('Failed to fetch data: ...')`. -/
def fetchEnergyData (oracle : Nat → HttpOutcome) : Except String Json × Nat :=
  (match fetchOutcome (oracle 0) with
   | .ok b => .ok b
   | .error c => .error ("Failed to fetch data: " ++ c), 1)

/-- The failure kinds of the fetch-and-normalize pipeline. -/
inductive FailKind where
  | fetch
  | malformed
  | noData
  | emptyResult
  | notIterable
deriving DecidableEq, Repr

/-- A failure of the combined pipeline. -/
inductive PipeError where
  | fetchFail (cause : String)
  | procFail (e : PError)
deriving DecidableEq, Repr

/-- The kind of a processing failure. -/
def PError.kind : PError → FailKind
  | .malformed _ => .malformed
  | .noData => .noData
  | .emptyResult _ => .emptyResult
  | .notIterable _ => .notIterable

/-- The kind of a pipeline failure. -/
def PipeError.kind : PipeError → FailKind
  | .fetchFail _ => .fetch
  | .procFail e => e.kind

/-- The message the caller sees for a pipeline failure, exactly as the two
`raise Exception(...)` statements format it. -/
def PipeError.message : PipeError → String
  | .fetchFail c => "Failed to fetch data: " ++ c
  | .procFail e => "Failed to process data: " ++ e.message

/-- Fetch then normalize, the two components used sequentially. -/
def fetchAndNormalize (oracle : Nat → HttpOutcome) :
    Except PipeError (List PriceRecord) :=
  match fetchOutcome (oracle 0) with
  | .error c => .error (.fetchFail c)
  | .ok body =>
    match processPricingData body with
    | .error e => .error (.procFail e)
    | .ok recs => .ok recs

/-! ### Generic helper lemmas -/

theorem strMkData (s : String) : String.mk s.data = s := rfl

/-- Does the pattern stand at the front of the list? -/
def startsSeq : List Char → List Char → Bool
  | [], _ => true
  | _ :: _, [] => false
  | p :: ps, c :: cs => p == c && startsSeq ps cs

/-- Does the pattern occur anywhere in the list (substring containment)? -/
def containsSeq (pat : List Char) : List Char → Bool
  | [] => startsSeq pat []
  | c :: cs => startsSeq pat (c :: cs) || containsSeq pat cs

theorem startsSeq_append_self (pat r : List Char) :
    startsSeq pat (pat ++ r) = true := by
  induction pat with
  | nil => rfl
  | cons p ps ih => simp [startsSeq, ih]

theorem containsSeq_append_self (pre pat post : List Char) :
    containsSeq pat (pre ++ (pat ++ post)) = true := by
  induction pre with
  | nil =>
    cases hp : pat ++ post with
    | nil =>
      rcases List.append_eq_nil.mp hp with ⟨h1, _⟩
      subst h1; rfl
    | cons c cs =>
      rw [← hp]
      simp only [List.nil_append]
      rw [hp]
      simp only [containsSeq]
      rw [← hp, startsSeq_append_self]
      rfl
  | cons c cs ih =>
    simp only [List.cons_append, containsSeq, List.append_eq, ih, Bool.or_true]

/-! ### Invariant: the skip counter equals the number of skip diagnostics -/

/-- Every branch of `procDetail` leaves the state unchanged, skips with a
diagnostic, or appends one row. -/
theorem procDetail_shape (st : PState) (d : Json) :
    procDetail st d = st ∨
    (∃ a b, procDetail st d = skipSt st a b) ∨
    (∃ r, procDetail st d = { st with recs := st.recs ++ [r] }) := by
  cases d with
  | obj kvs =>
    simp only [procDetail]
    split
    · split
      · split
        · split
          · exact Or.inr (Or.inr ⟨_, rfl⟩)
          · exact Or.inr (Or.inl ⟨_, _, rfl⟩)
        · exact Or.inr (Or.inl ⟨_, _, rfl⟩)
      all_goals exact Or.inr (Or.inl ⟨_, _, rfl⟩)
    · exact Or.inl rfl
  | null => exact Or.inl rfl
  | bool b => exact Or.inl rfl
  | int n => exact Or.inl rfl
  | float x => exact Or.inl rfl
  | str s => exact Or.inl rfl
  | arr xs => exact Or.inl rfl

/-- The diagnostic-count invariant for one detail record. -/
theorem procDetail_countP (st : PState) (d : Json)
    (h : st.log.countP isSkipEvent = st.skipped) :
    (procDetail st d).log.countP isSkipEvent = (procDetail st d).skipped := by
  rcases procDetail_shape st d with he | ⟨a, b, he⟩ | ⟨r, he⟩ <;>
    simp [he, skipSt, List.countP_append, isSkipEvent, h, List.countP_cons]

/-- The diagnostic-count invariant for the inner fold. -/
theorem foldl_procDetail_countP (details : List Json) (st : PState)
    (h : st.log.countP isSkipEvent = st.skipped) :
    (details.foldl procDetail st).log.countP isSkipEvent =
      (details.foldl procDetail st).skipped := by
  induction details generalizing st with
  | nil => exact h
  | cons d rest ih => exact ih (procDetail st d) (procDetail_countP st d h)

/-- The diagnostic-count invariant for one `data` entry. -/
theorem procItem_countP (st st2 : PState) (item : Json)
    (h : st.log.countP isSkipEvent = st.skipped)
    (h2 : procItem st item = .ok st2) :
    st2.log.countP isSkipEvent = st2.skipped := by
  cases item with
  | obj kvs =>
    simp only [procItem] at h2
    split at h2
    · split at h2
      · cases h2
        exact foldl_procDetail_countP _ st h
      · cases h2
    · cases h2
      exact h
  | null => cases h2; exact h
  | bool b => cases h2; exact h
  | int n => cases h2; exact h
  | float x => cases h2; exact h
  | str s => cases h2; exact h
  | arr xs => cases h2; exact h

/-- The diagnostic-count invariant for the outer loop. -/
theorem procItems_countP (items : List Json) (st st2 : PState)
    (h : st.log.countP isSkipEvent = st.skipped)
    (h2 : procItems st items = .ok st2) :
    st2.log.countP isSkipEvent = st2.skipped := by
  induction items generalizing st with
  | nil =>
    simp only [procItems] at h2
    cases h2
    exact h
  | cons item rest ih =>
    simp only [procItems] at h2
    cases hi : procItem st item with
    | ok stm =>
      rw [hi] at h2
      exact ih stm (procItem_countP st stm item h hi) h2
    | error e => rw [hi] at h2; cases h2

/-! ### Claim theorems -/

/-- Claim C4: for every mapping input whose `data` key is absent or holds an
empty list, `process_pricing_data` fails with `NoDataError` (the raise site
distinct from the malformed-shape one). -/
theorem claim_c4 (kvs : List (String × Json))
    (h : lookupJ kvs "data" = none ∨ lookupJ kvs "data" = some (Json.arr [])) :
    processPricingData (.obj kvs) = .error .noData := by
  rcases h with h | h <;>
    simp [processPricingData, dictGet, h, pyTruthy, Option.getD]

/-- Witness for C4 at the empty mapping. -/
theorem claim_c4_witness :
    processPricingData (.obj []) = .error .noData :=
  claim_c4 [] (Or.inl rfl)

/-- Claim C6: a detail mapping missing `startIntervalTimeStamp`, or missing
`intervalPrice`, or with a `None` price, is skipped silently: the state is
unchanged (no row, no counter increment, no diagnostic, no error). -/
theorem claim_c6 (st : PState) (kvs : List (String × Json))
    (h : lookupJ kvs "startIntervalTimeStamp" = none ∨
         lookupJ kvs "intervalPrice" = none ∨
         lookupJ kvs "intervalPrice" = some Json.null) :
    procDetail st (.obj kvs) = st := by
  rcases h with h | h | h <;>
    simp [procDetail, dictGet, h, pyTruthy, Json.isNull, Option.getD]

/-- Witness for C6: a detail with a price but no timestamp is left exactly
as-is. -/
theorem claim_c6_witness :
    procDetail ⟨[], 0, []⟩ (.obj [("intervalPrice", Json.int 5)]) =
      ⟨[], 0, []⟩ :=
  claim_c6 ⟨[], 0, []⟩ [("intervalPrice", Json.int 5)] (Or.inl rfl)

/-- Claim C8: when the single HTTP request fails (network error, bad status,
or non-JSON body), `fetch_energy_data` fails with a message carrying the
underlying cause, and exactly one request is issued (no retry). -/
theorem claim_c8 (oracle : Nat → HttpOutcome) (c : String)
    (h : oracle 0 = .netError c ∨ (∃ code, oracle 0 = .badStatus code c) ∨
         oracle 0 = .nonJson c) :
    fetchEnergyData oracle = (.error ("Failed to fetch data: " ++ c), 1) := by
  rcases h with h | ⟨code, h⟩ | h <;> simp [fetchEnergyData, fetchOutcome, h]

/-- Witness for C8 at a failing request. -/
theorem claim_c8_witness :
    fetchEnergyData (fun _ => .netError "connection refused") =
      (.error ("Failed to fetch data: " ++ "connection refused"), 1) :=
  claim_c8 (fun _ => .netError "connection refused") "connection refused"
    (Or.inl rfl)

/-- Claim C10: only a `None` price is treated as absent — a detail with a
parseable timestamp and a falsy but non-null, float-convertible price (0,
0.0, "0", ...) yields an output row, whose price is 0.0. -/
theorem claim_c10 (st : PState) (kvs : List (String × Json)) (s : String)
    (dt : Dt) (p : Json) (v : PyFloat)
    (hts : lookupJ kvs "startIntervalTimeStamp" = some (Json.str s))
    (hdt : parseTimestamp s = some dt)
    (hp : lookupJ kvs "intervalPrice" = some p)
    (hnn : p.isNull = false)
    (hfalsy : pyTruthy p = false)
    (hv : pyFloat p = some v) :
    procDetail st (.obj kvs) = { st with recs := st.recs ++ [⟨dt, v⟩] } ∧
      v = PyFloat.finite 0 := by
  have hv0 : v = PyFloat.finite 0 := by
    cases p with
    | null => simp [Json.isNull] at hnn
    | bool b =>
      simp only [pyTruthy] at hfalsy
      subst hfalsy
      simp only [pyFloat, Bool.false_eq_true, if_false, Option.some.injEq] at hv
      exact hv.symm
    | int n =>
      simp only [pyTruthy, Bool.not_eq_false', beq_iff_eq] at hfalsy
      subst hfalsy
      simp only [pyFloat, Int.cast_zero, Option.some.injEq] at hv
      exact hv.symm
    | float x =>
      simp only [pyTruthy, Bool.not_eq_false', beq_iff_eq] at hfalsy
      subst hfalsy
      simp only [pyFloat, Option.some.injEq] at hv
      exact hv.symm
    | str s2 =>
      simp only [pyTruthy, Bool.not_eq_false', beq_iff_eq] at hfalsy
      subst hfalsy
      simp [pyFloat, show parsePyFloat "" = none from rfl] at hv
    | arr xs => simp [pyFloat] at hv
    | obj kvs2 => simp [pyFloat] at hv
  refine ⟨?_, hv0⟩
  have hs : s ≠ "" := by
    intro he
    rw [he, show parseTimestamp "" = none from rfl] at hdt
    exact Option.noConfusion hdt
  simp [procDetail, dictGet, hts, hp, pyTruthy, hnn, hdt, hv, hs, Option.getD]

/-- Witness for C10: a zero integer price with a clean timestamp produces a
row priced 0.0. -/
theorem claim_c10_witness :
    procDetail ⟨[], 0, []⟩
        (.obj [("startIntervalTimeStamp", Json.str "2024-01-01T00:00:00"),
               ("intervalPrice", Json.int 0)]) =
      ⟨[⟨⟨2024, 1, 1, 0, 0, 0⟩, PyFloat.finite 0⟩], 0, []⟩ ∧
    PyFloat.finite ((0 : Int) : ℚ) = PyFloat.finite 0 :=
  claim_c10 ⟨[], 0, []⟩ _ "2024-01-01T00:00:00" ⟨2024, 1, 1, 0, 0, 0⟩
    (Json.int 0) (PyFloat.finite ((0 : Int) : ℚ)) rfl rfl rfl rfl rfl rfl

/-- Claim C2: for a processed detail record (truthy string timestamp,
non-null price), the timestamp is parsed by first stripping a trailing
sign-plus-4-digit offset and applying the format; on failure every
`.digits` substring is stripped from the result and the format retried; if
both attempts fail, or the price is not float-convertible, the record is
skipped with the counter incremented and a diagnostic, and the fold over the
remaining details continues from that state. -/
theorem claim_c2 (st : PState) (kvs : List (String × Json)) (s : String)
    (p : Json)
    (hts : dictGet kvs "startIntervalTimeStamp" .null = .str s)
    (hne : s ≠ "")
    (hp : dictGet kvs "intervalPrice" .null = p)
    (hnn : p.isNull = false) :
    (∀ dt v, strptimeYmdHMS (stripOffset s) = some dt → pyFloat p = some v →
        procDetail st (.obj kvs) = { st with recs := st.recs ++ [⟨dt, v⟩] }) ∧
    (∀ dt v, strptimeYmdHMS (stripOffset s) = none →
        strptimeYmdHMS (stripFrac (stripOffset s)) = some dt →
        pyFloat p = some v →
        procDetail st (.obj kvs) = { st with recs := st.recs ++ [⟨dt, v⟩] }) ∧
    (((strptimeYmdHMS (stripOffset s) = none ∧
       strptimeYmdHMS (stripFrac (stripOffset s)) = none) ∨ pyFloat p = none) →
      procDetail st (.obj kvs) = skipSt st (.str s) p ∧
      ∀ rest, List.foldl procDetail st ((Json.obj kvs) :: rest) =
        List.foldl procDetail (skipSt st (.str s) p) rest) := by
  refine ⟨?_, ?_, ?_⟩
  · intro dt v h1 hv
    have hpt : parseTimestamp s = some dt := by
      simp [parseTimestamp, h1]
    simp [procDetail, hts, hp, pyTruthy, hnn, hpt, hv, hne]
  · intro dt v h1 h2 hv
    have hpt : parseTimestamp s = some dt := by
      simp [parseTimestamp, h1, h2]
    simp [procDetail, hts, hp, pyTruthy, hnn, hpt, hv, hne]
  · intro h
    have hskip : procDetail st (.obj kvs) = skipSt st (.str s) p := by
      rcases h with ⟨h1, h2⟩ | hv
      · have hpt : parseTimestamp s = none := by
          simp [parseTimestamp, h1, h2]
        simp [procDetail, hts, hp, pyTruthy, hnn, hpt, hne]
      · cases hpt : parseTimestamp s with
        | some dt => simp [procDetail, hts, hp, pyTruthy, hnn, hpt, hv, hne]
        | none => simp [procDetail, hts, hp, pyTruthy, hnn, hpt, hne]
    exact ⟨hskip, fun rest => by rw [List.foldl_cons, hskip]⟩

/-- Witness for C2 on the fractional-seconds retry path: the first format
attempt fails, the `.digits`-stripped retry succeeds. -/
theorem claim_c2_witness :
    procDetail ⟨[], 0, []⟩
        (.obj [("startIntervalTimeStamp", Json.str "2024-01-01T00:00:00.5"),
               ("intervalPrice", Json.float (PyFloat.finite 13))]) =
      { (⟨[], 0, []⟩ : PState) with
        recs := [] ++ [⟨⟨2024, 1, 1, 0, 0, 0⟩, PyFloat.finite 13⟩] } :=
  (claim_c2 ⟨[], 0, []⟩
      [("startIntervalTimeStamp", Json.str "2024-01-01T00:00:00.5"),
       ("intervalPrice", Json.float (PyFloat.finite 13))]
      "2024-01-01T00:00:00.5" (Json.float (PyFloat.finite 13)) rfl
      (by decide) rfl rfl).2.1
    ⟨2024, 1, 1, 0, 0, 0⟩ (PyFloat.finite 13) rfl rfl rfl

/-- Entries of `data` that are not mappings are passed over without any
effect on the state. -/
theorem procItems_nonObj (st : PState) (xs : List Json)
    (h : ∀ x ∈ xs, x.isObj = false) :
    procItems st xs = .ok st := by
  induction xs with
  | nil => rfl
  | cons x rest ih =>
    have hx : x.isObj = false := h x (List.mem_cons_self x rest)
    have hstep : procItem st x = .ok st := by
      cases x with
      | obj kvs => simp [Json.isObj] at hx
      | null => rfl
      | bool b => rfl
      | int n => rfl
      | float f => rfl
      | str s => rfl
      | arr ys => rfl
    simp only [procItems, hstep]
    exact ih fun x hm => h x (List.mem_cons_of_mem _ hm)

/-- Counterexample to claim C3 as stated: `{"data": [1]}` has a `data` value
that is not a sequence of mappings, yet `process_pricing_data` fails with
the empty-result raise site, not the malformed-shape one. -/
theorem claim_c3_counterexample :
    processPricingData (.obj [("data", Json.arr [Json.int 1])]) =
      .error (.emptyResult 0) ∧
    PError.kind (.emptyResult 0) ≠ FailKind.malformed :=
  ⟨rfl, by decide⟩

/-- Claim C3 (amended): a non-mapping input fails with the malformed-shape
error; but a truthy non-iterable `data` value fails with a distinct
not-iterable error, and a non-empty `data` sequence containing no mappings
falls through to the empty-result error with zero skipped, not the
malformed-shape error. -/
theorem claim_c3_amended :
    (∀ j : Json, j.isObj = false →
        processPricingData j = .error (.malformed (typeName j))) ∧
    (∀ kvs dl, dictGet kvs "data" (.arr []) = dl → pyTruthy dl = true →
        pyIterate dl = none →
        processPricingData (.obj kvs) = .error (.notIterable (typeName dl))) ∧
    (∀ kvs xs, dictGet kvs "data" (.arr []) = .arr xs → xs ≠ [] →
        (∀ x ∈ xs, x.isObj = false) →
        processPricingData (.obj kvs) = .error (.emptyResult 0)) := by
  refine ⟨?_, ?_, ?_⟩
  · intro j hj
    cases j with
    | obj kvs => simp [Json.isObj] at hj
    | null => rfl
    | bool b => rfl
    | int n => rfl
    | float f => rfl
    | str s => rfl
    | arr ys => rfl
  · intro kvs dl h1 h2 h3
    simp [processPricingData, h1, h2, h3]
  · intro kvs xs h1 h2 h3
    have hit : procItems ⟨[], 0, []⟩ xs = .ok ⟨[], 0, []⟩ :=
      procItems_nonObj _ xs h3
    simp [processPricingData, h1, pyTruthy, List.isEmpty_iff, h2, pyIterate,
      hit]

/-- Witness for the amended C3 at a non-mapping input. -/
theorem claim_c3_amended_witness :
    processPricingData (Json.int 3) = .error (.malformed "int") :=
  claim_c3_amended.1 (Json.int 3) rfl

/-- Counterexample to claim C5 as stated: a well-formed non-empty response
producing zero valid rows with zero parse-skips fails with the empty-result
raise site, but its message does not report any skip count (the substring
"Skipped" does not occur). -/
theorem claim_c5_counterexample :
    processPricingData (.obj [("data", Json.arr [Json.obj []])]) =
      .error (.emptyResult 0) ∧
    containsSeq "Skipped".data (PError.message (.emptyResult 0)).data =
      false :=
  ⟨rfl, by decide⟩

/-- Claim C5 (amended): a well-formed, non-empty response producing zero
valid rows fails with the empty-result error; when at least one record was
skipped for a parse failure, the message reports that count. -/
theorem claim_c5_amended (kvs : List (String × Json)) (dl : Json)
    (items : List Json) (st : PState)
    (h1 : dictGet kvs "data" (.arr []) = dl)
    (h2 : pyTruthy dl = true)
    (h3 : pyIterate dl = some items)
    (h4 : procItems ⟨[], 0, []⟩ items = .ok st)
    (h5 : st.recs = []) :
    processPricingData (.obj kvs) = .error (.emptyResult st.skipped) ∧
    (0 < st.skipped →
      containsSeq
        ("Skipped " ++ toString st.skipped ++ " invalid records.").data
        (PError.message (.emptyResult st.skipped)).data = true) := by
  constructor
  · simp [processPricingData, h1, h2, h3, h4, h5]
  · intro hpos
    simp only [PError.message, if_pos hpos, String.data_append]
    have hsp : (" Skipped " ++ toString st.skipped ++
        " invalid records.").data =
        ' ' :: ("Skipped " ++ toString st.skipped ++
          " invalid records.").data := by
      simp only [String.data_append]
      rfl
    simp only [String.data_append] at hsp
    rw [hsp]
    have := containsSeq_append_self
      ("No valid pricing data records found after processing.".data ++ [' '])
      (("Skipped ".data ++ (toString st.skipped).data) ++
        " invalid records.".data)
      " This may indicate: (1) No data available for the selected date range, (2) API response structure changed, or (3) All records had parsing errors.".data
    simpa using this

/-- Witness for the amended C5: one unparseable record, empty result, and
the message reports one skipped record. -/
theorem claim_c5_amended_witness :
    processPricingData
        (.obj [("data", Json.arr [Json.obj [("priceDetails", Json.arr
          [Json.obj [("startIntervalTimeStamp", Json.str "x"),
                     ("intervalPrice", Json.int 1)]])]])]) =
      .error (.emptyResult 1) ∧
    (0 < 1 →
      containsSeq ("Skipped " ++ toString 1 ++ " invalid records.").data
        (PError.message (.emptyResult 1)).data = true) :=
  claim_c5_amended _ _ _
    ⟨[], 1, [.skipRecord (Json.str "x") (Json.int 1)]⟩ rfl rfl rfl rfl rfl

/-- Claim C1: for a response reaching the processing loop and yielding at
least one valid detail record, `process_pricing_data` returns exactly the
collected valid rows — one per valid detail — sorted ascending by
timestamp, and the number of skip diagnostics emitted equals the
skipped-invalid counter. -/
theorem claim_c1 (kvs : List (String × Json)) (dl : Json)
    (items : List Json) (st : PState)
    (h1 : dictGet kvs "data" (.arr []) = dl)
    (h2 : pyTruthy dl = true)
    (h3 : pyIterate dl = some items)
    (h4 : procItems ⟨[], 0, []⟩ items = .ok st)
    (h5 : st.recs ≠ []) :
    processPricingData (.obj kvs) = .ok (sortRecs st.recs) ∧
    List.Sorted recLE (sortRecs st.recs) ∧
    (sortRecs st.recs).Perm st.recs ∧
    st.log.countP isSkipEvent = st.skipped := by
  refine ⟨?_, ?_, ?_, ?_⟩
  · simp [processPricingData, h1, h2, h3, h4, List.isEmpty_iff, h5]
  · exact List.sorted_insertionSort recLE st.recs
  · exact List.perm_insertionSort recLE st.recs
  · exact procItems_countP items ⟨[], 0, []⟩ st rfl h4

/-- Witness for C1: one valid and one invalid detail; the valid row is
returned, one skip diagnostic matches the counter. -/
theorem claim_c1_witness :
    processPricingData
        (.obj [("data", Json.arr [Json.obj [("priceDetails", Json.arr
          [Json.obj [("startIntervalTimeStamp",
                        Json.str "2024-01-01T00:00:00-0800"),
                     ("intervalPrice", Json.float (PyFloat.finite 13))],
           Json.obj [("startIntervalTimeStamp", Json.str "garbage"),
                     ("intervalPrice", Json.int 1)]])]])]) =
      .ok (sortRecs [⟨⟨2024, 1, 1, 0, 0, 0⟩, PyFloat.finite 13⟩]) ∧
    List.Sorted recLE
      (sortRecs [⟨⟨2024, 1, 1, 0, 0, 0⟩, PyFloat.finite 13⟩]) ∧
    (sortRecs [⟨⟨2024, 1, 1, 0, 0, 0⟩, PyFloat.finite 13⟩]).Perm
      [⟨⟨2024, 1, 1, 0, 0, 0⟩, PyFloat.finite 13⟩] ∧
    List.countP isSkipEvent
      [LogEvent.skipRecord (Json.str "garbage") (Json.int 1)] = 1 :=
  claim_c1 _ _ _
    ⟨[⟨⟨2024, 1, 1, 0, 0, 0⟩, PyFloat.finite 13⟩], 1,
      [.skipRecord (Json.str "garbage") (Json.int 1)]⟩
    rfl rfl rfl rfl (List.cons_ne_nil _ _)

/-! ### Distinguishing the failure kinds from the caller-visible message -/

/-- Peel a fixed pattern off the front of a list, returning the rest. -/
def peelSeq : List Char → List Char → Option (List Char)
  | [], l => some l
  | _ :: _, [] => none
  | p :: ps, c :: cs => if p == c then peelSeq ps cs else none

theorem peelSeq_append_self (p r : List Char) : peelSeq p (p ++ r) = some r := by
  induction p with
  | nil => rfl
  | cons c cs ih => simp [peelSeq, ih]

/-- Recover the failure kind from the characters of the caller-visible
message. -/
def classifyData (l : List Char) : Option FailKind :=
  match peelSeq "Failed to fetch data: ".data l with
  | some _ => some .fetch
  | none =>
    match peelSeq "Failed to process data: ".data l with
    | none => none
    | some rest =>
      match peelSeq "Expected dict but got ".data rest with
      | some _ => some .malformed
      | none =>
        match peelSeq "No data found".data rest with
        | some _ => some .noData
        | none =>
          match peelSeq "No valid pricing".data rest with
          | some _ => some .emptyResult
          | none =>
            match rest with
            | '\'' :: _ => some .notIterable
            | _ => none

/-- Recover the failure kind from the caller-visible message. -/
def classifyMsg (s : String) : Option FailKind := classifyData s.data

/-- Any message starting with the processing prefix and the empty-result
text classifies as the empty-result kind, whatever follows. -/
theorem emptyResult_classify_aux (r : List Char) :
    classifyData ("Failed to process data: ".data ++
      ("No valid pricing data records found after processing.".data ++ r)) =
      some FailKind.emptyResult := rfl

/-- Counterexample to claim C7 as stated: on `{"data": 5}` the pipeline
fails with the not-iterable `TypeError`, a failure that is none of the four
named kinds. -/
theorem claim_c7_counterexample :
    fetchAndNormalize (fun _ => .success (.obj [("data", Json.int 5)])) =
      .error (.procFail (.notIterable "int")) ∧
    PipeError.kind (.procFail (.notIterable "int")) ≠ FailKind.fetch ∧
    PipeError.kind (.procFail (.notIterable "int")) ≠ FailKind.malformed ∧
    PipeError.kind (.procFail (.notIterable "int")) ≠ FailKind.noData ∧
    PipeError.kind (.procFail (.notIterable "int")) ≠ FailKind.emptyResult :=
  ⟨rfl, by decide, by decide, by decide, by decide⟩

/-- Claim C7 (amended): every failing fetch-and-normalize call yields one of
five kinds — the four named ones plus the not-iterable failure — and the
kind is recoverable from the caller-visible message alone, so the kinds are
mutually distinguishable. -/
theorem claim_c7_amended (oracle : Nat → HttpOutcome) (e : PipeError)
    (_h : fetchAndNormalize oracle = .error e) :
    classifyMsg e.message = some e.kind := by
  cases e with
  | fetchFail c =>
    obtain ⟨l⟩ := c
    rfl
  | procFail pe =>
    cases pe with
    | malformed t =>
      obtain ⟨l⟩ := t
      rfl
    | noData => rfl
    | notIterable t =>
      obtain ⟨l⟩ := t
      rfl
    | emptyResult n =>
      rcases Nat.eq_zero_or_pos n with hn | hn
      · subst hn
        rfl
      · show classifyData _ = _
        simp only [PipeError.message, PError.message, if_pos hn,
          String.data_append]
        exact emptyResult_classify_aux
          ((" Skipped ".data ++ (toString n).data ++
              " invalid records.".data) ++
            " This may indicate: (1) No data available for the selected date range, (2) API response structure changed, or (3) All records had parsing errors.".data)

/-- Witness for the amended C7 at a concrete failing call. -/
theorem claim_c7_amended_witness :
    classifyMsg (PipeError.message (.fetchFail "boom")) =
      some (PipeError.kind (.fetchFail "boom")) :=
  claim_c7_amended (fun _ => .netError "boom") (.fetchFail "boom") rfl

/-! ### Idempotence of the cleanup on clean timestamps -/

/-- A string in the clean form `YYYY-MM-DDTHH:MM:SS`: six all-digit fields
of widths 4, 2, 2, 2, 2, 2 joined by the literal separators. -/
def CleanForm (s : String) : Prop :=
  ∃ y mo d h mi sec : List Char,
    y.length = 4 ∧ mo.length = 2 ∧ d.length = 2 ∧ h.length = 2 ∧
    mi.length = 2 ∧ sec.length = 2 ∧
    (∀ c ∈ y, c.isDigit) ∧ (∀ c ∈ mo, c.isDigit) ∧ (∀ c ∈ d, c.isDigit) ∧
    (∀ c ∈ h, c.isDigit) ∧ (∀ c ∈ mi, c.isDigit) ∧ (∀ c ∈ sec, c.isDigit) ∧
    s.data = y ++ '-' :: (mo ++ '-' :: (d ++ 'T' :: (h ++ ':' ::
      (mi ++ ':' :: sec))))

/-- The fractional-seconds substitution is the identity on dot-free
strings. -/
theorem stripFracGo_no_dot (l : List Char) (h : ∀ c ∈ l, c ≠ '.') :
    stripFracGo false l = l := by
  induction l with
  | nil => rfl
  | cons c cs ih =>
    have hc : c ≠ '.' := h c (List.mem_cons_self c cs)
    have hcb : (c == '.') = false := by simp [hc]
    simp only [stripFracGo, Bool.false_and, Bool.false_eq_true, if_false,
      hcb]
    exact congrArg (c :: ·) (ih fun x hm => h x (List.mem_cons_of_mem _ hm))

/-- The offset substitution is the identity when the third-from-last
character is not a digit and the last character is not a newline. -/
theorem stripOffsetL_of_tail5 (pre : List Char) (a b c d e : Char)
    (hc : c.isDigit = false) (he : e ≠ '\n') :
    stripOffsetL (pre ++ [a, b, c, d, e]) = pre ++ [a, b, c, d, e] := by
  have hrev : (pre ++ [a, b, c, d, e]).reverse =
      e :: d :: c :: b :: a :: pre.reverse := by
    simp
  have hpeel : peelOffsetRev (e :: d :: c :: b :: a :: pre.reverse) = none := by
    simp [peelOffsetRev, hc]
  simp only [stripOffsetL, hrev, hpeel]
  rw [if_neg he]

/-- Claim C9: the timestamp cleanup is idempotent on clean strings — for a
string already in the form `YYYY-MM-DDTHH:MM:SS`, both the trailing-offset
strip and the `.digits` strip leave it unchanged. -/
theorem claim_c9 (s : String) (h : CleanForm s) :
    stripOffset s = s ∧ stripFrac s = s := by
  obtain ⟨y, mo, d, h4, mi, sec, hly, hlmo, hld, hlh, hlmi, hlsec,
    hdy, hdmo, hdd, hdh, hdmi, hdsec, hdecomp⟩ := h
  constructor
  · obtain ⟨m1, m2, hmi⟩ := List.length_eq_two.mp hlmi
    obtain ⟨c1, c2, hsec⟩ := List.length_eq_two.mp hlsec
    subst hmi hsec
    have hshape : s.data =
          (y ++ '-' :: (mo ++ '-' :: (d ++ 'T' :: (h4 ++ [':'])))) ++
            [m1, m2, ':', c1, c2] := by
        rw [hdecomp]
        simp
    have hc2dig : c2.isDigit := hdsec c2 (by simp)
    have hc2 : c2 ≠ '\n' := by
      intro heq
      rw [heq] at hc2dig
      simp [Char.isDigit] at hc2dig
    have := stripOffsetL_of_tail5
      (y ++ '-' :: (mo ++ '-' :: (d ++ 'T' :: (h4 ++ [':']))))
      m1 m2 ':' c1 c2 (by decide) hc2
    calc stripOffset s = String.mk (stripOffsetL s.data) := rfl
      _ = String.mk s.data := by rw [hshape, this]
      _ = s := strMkData s
  · have hnodot : ∀ c ∈ s.data, c ≠ '.' := by
      intro c hm heq
      rw [hdecomp] at hm
      subst heq
      simp only [List.mem_append, List.mem_cons] at hm
      rcases hm with hm | hm | hm
      · exact absurd (hdy _ hm) (by decide)
      · exact absurd hm (by decide)
      rcases hm with hm | hm | hm
      · exact absurd (hdmo _ hm) (by decide)
      · exact absurd hm (by decide)
      rcases hm with hm | hm | hm
      · exact absurd (hdd _ hm) (by decide)
      · exact absurd hm (by decide)
      rcases hm with hm | hm | hm
      · exact absurd (hdh _ hm) (by decide)
      · exact absurd hm (by decide)
      rcases hm with hm | hm | hm
      · exact absurd (hdmi _ hm) (by decide)
      · exact absurd hm (by decide)
      · exact absurd (hdsec _ hm) (by decide)
    calc stripFrac s = String.mk (stripFracGo false s.data) := rfl
      _ = String.mk s.data := by rw [stripFracGo_no_dot s.data hnodot]
      _ = s := strMkData s

/-- Witness for C9 at a concrete clean timestamp. -/
theorem claim_c9_witness :
    stripOffset "2024-01-01T00:00:00" = "2024-01-01T00:00:00" ∧
    stripFrac "2024-01-01T00:00:00" = "2024-01-01T00:00:00" :=
  claim_c9 "2024-01-01T00:00:00"
    ⟨['2', '0', '2', '4'], ['0', '1'], ['0', '1'], ['0', '0'], ['0', '0'],
     ['0', '0'], rfl, rfl, rfl, rfl, rfl, rfl, by decide, by decide,
     by decide, by decide, by decide, by decide, by decide⟩
